import Mathlib

/-!
Verification of the tex2pdf log analyzer (src/tex2pdf/analysis.py) and
compilation orchestrator (src/tex2pdf/core.py), shallowly embedded over
lists of characters.  Regex patterns are embedded as position-indexed
matching functions that mirror the concrete regexes used by the code.
-/

namespace Tex2Pdf

/-- Log text is modelled as a list of characters. -/
abbrev Str := List Char

/-- ASCII whitespace, as stripped by Python str.strip and matched by the
regex class backslash-s. -/
def pyWs (c : Char) : Bool :=
  c = ' ' || c = '\t' || c = '\n' || c = '\r' || c = '\x0b' || c = '\x0c'

/-- Python str.strip: drop leading and trailing whitespace. -/
def pyStrip (s : Str) : Str :=
  ((s.dropWhile pyWs).reverse.dropWhile pyWs).reverse

/-- Python str.lower, on ASCII characters. -/
def pyLower (s : Str) : Str := s.map Char.toLower

/-- Python substring test: does the needle occur in the haystack. -/
def isSubOf (n : Str) : Str → Bool
  | [] => n.isEmpty
  | c :: t => n.isPrefixOf (c :: t) || isSubOf n t

/-- Severity of a diagnostic (models the Literal type of Diagnostic.level). -/
inductive Level where
  | error
  | warning
  | info
deriving DecidableEq

/-- Diagnostic record, as in models.py. -/
structure Diagnostic where
  level : Level
  code : Str
  message : Str
  raw : Str
  file : Option Str := none
  line : Option Nat := none
deriving DecidableEq

/-- One regex-match attempt at a fixed position of the log: on success it
returns the end offset of the match and the list of capture groups. -/
abbrev Pat := Str → Nat → Option (Nat × List Str)

/-- ASCII digit, the regex class backslash-d. -/
def isDigitCh (c : Char) : Bool := decide ('0' ≤ c) && decide (c ≤ '9')

/-- Character class [a-zA-Z@] from the undefined-control-sequence regex. -/
def isCsHead (c : Char) : Bool :=
  (decide ('a' ≤ c) && decide (c ≤ 'z')) || (decide ('A' ≤ c) && decide (c ≤ 'Z')) || c = '@'

/-- Character class [a-zA-Z0-9@] from the undefined-control-sequence regex. -/
def isCsTail (c : Char) : Bool := isCsHead c || isDigitCh c

/-- Literal head of the undefined-control-sequence regex. -/
def litUndef : Str := "Undefined control sequence".data

/-- Rule-1 regex of analysis.py: the literal text, the rest of its line, a
newline, an l.digits marker, whitespace, and a captured control sequence. -/
def reUndefined : Pat := fun log pos =>
  let rest := log.drop pos
  if litUndef.isPrefixOf rest then
    let r1 := rest.drop litUndef.length
    let lineTail := r1.takeWhile (fun c => !(c = '\n'))
    match r1.drop lineTail.length with
    | '\n' :: r3 =>
      if ("l.".data).isPrefixOf r3 then
        let r4 := r3.drop 2
        let digs := r4.takeWhile isDigitCh
        if digs.isEmpty then none else
        let r5 := r4.drop digs.length
        let wsp := r5.takeWhile pyWs
        if wsp.isEmpty then none else
        match r5.drop wsp.length with
        | '\\' :: r7 =>
          let a1 := r7.takeWhile isCsHead
          if a1.isEmpty then none else
          let a2 := (r7.drop a1.length).takeWhile isCsTail
          some (pos + litUndef.length + lineTail.length + 1 + 2 + digs.length +
                  wsp.length + 1 + a1.length + a2.length,
                ['\\' :: (a1 ++ a2)])
        | _ => none
      else none
    | _ => none
  else none

/-- Literal head of the missing-package regex, up to the opening backtick. -/
def litMissHead : Str := "LaTeX Error: File `".data

/-- Literal tail of the missing-package regex after the captured run. -/
def litMissTail : Str := ".sty' not found".data

/-- Greedy backtracking choice for the capture of the missing-package regex:
the largest j at most the given bound such that the tail literal follows
after j characters. -/
def findStyJ (r : Str) : Nat → Option Nat
  | 0 => none
  | j + 1 =>
    if litMissTail.isPrefixOf (r.drop (j + 1)) then some (j + 1) else findStyJ r j

/-- Rule-2 regex of analysis.py: LaTeX Error: File backtick, a captured
nonempty run of non-quote characters ending in .sty, a quote, not found. -/
def reMissingFile : Pat := fun log pos =>
  let rest := log.drop pos
  if litMissHead.isPrefixOf rest then
    let r1 := rest.drop litMissHead.length
    let nq := r1.takeWhile (fun c => !(c = '\x27'))
    match findStyJ r1 nq.length with
    | some j => some (pos + litMissHead.length + j + litMissTail.length,
                      [r1.take j ++ ".sty".data])
    | none => none
  else none

/-- Literal of the runaway-argument regex. -/
def litRunaway : Str := "Runaway argument".data

/-- Rule-3 regex of analysis.py: the literal with an optional question mark. -/
def reRunaway : Pat := fun log pos =>
  let rest := log.drop pos
  if litRunaway.isPrefixOf rest then
    match rest.drop litRunaway.length with
    | '?' :: _ => some (pos + litRunaway.length + 1, [])
    | _ => some (pos + litRunaway.length, [])
  else none

/-- Start-of-line test for the MULTILINE anchor of the generic-error regex. -/
def atLineStart (log : Str) (pos : Nat) : Bool :=
  match pos with
  | 0 => true
  | p + 1 => log.getD p ' ' = '\n'

/-- Rule-4 regex of analysis.py: a line beginning with an exclamation mark,
with the rest of the line captured. -/
def reGenericBang : Pat := fun log pos =>
  if atLineStart log pos then
    match log.drop pos with
    | c :: r =>
      if c = '!' then
        let lineTail := r.takeWhile (fun ch => !(ch = '\n'))
        some (pos + 1 + lineTail.length, [lineTail])
      else none
    | [] => none
  else none

/-- A regex match as passed to a handler: span, matched text, groups. -/
structure RMatch where
  start : Nat
  stop : Nat
  matched : Str
  groups : List Str
deriving DecidableEq

/-- Diagnostic code of rule 1. -/
def codeUndef : Str := "undefined-control-sequence".data

/-- Diagnostic code of rule 2. -/
def codeMissing : Str := "missing-package".data

/-- Diagnostic code of rule 3. -/
def codeRunawayArg : Str := "runaway-argument".data

/-- Diagnostic code of rule 4. -/
def codeLatexError : Str := "latex-error".data

/-- Handler of rule 1 (_handle_undefined_control_sequence). -/
def handleUndefinedControlSequence (m : RMatch) : List Diagnostic :=
  let sequence := match m.groups with
    | [] => "unknown".data
    | g :: _ => g
  let sequenceName := if sequence.head? = some '\\' then sequence else '\\' :: sequence
  [{ level := .error, code := codeUndef,
     message := "Undefined control sequence '".data ++ sequenceName ++
       "'. Check for typos or missing `\\usepackage`/`\\newcommand`.".data,
     raw := pyStrip m.matched }]

/-- Handler of rule 2 (_handle_missing_package). -/
def handleMissingPackage (m : RMatch) : List Diagnostic :=
  let package := m.groups.headD []
  [{ level := .error, code := codeMissing,
     message := "Missing package file '".data ++ package ++
       "'. Install the appropriate LaTeX package or adjust your preamble.".data,
     raw := pyStrip m.matched }]

/-- Handler of rule 3 (_handle_runaway_argument). -/
def handleRunawayArgument (m : RMatch) : List Diagnostic :=
  [{ level := .error, code := codeRunawayArg,
     message := "Runaway argument. Likely an unclosed brace or environment; check for missing '\x7d' or \\end\x7b...\x7d above.".data,
     raw := pyStrip m.matched }]

/-- Keyword list of the self-suppression check in _handle_generic_error. -/
def suppressKeys : List Str :=
  ["undefined control sequence".data, "file".data, "not found".data,
   "runaway argument".data]

/-- Self-suppression test of _handle_generic_error: does the lowercased
stripped matched text contain any of the keywords. -/
def suppressedB (m : RMatch) : Bool :=
  suppressKeys.any (fun k => isSubOf k (pyLower (pyStrip m.matched)))

/-- Handler of rule 4 (_handle_generic_error), with its self-suppression. -/
def handleGenericError (m : RMatch) : List Diagnostic :=
  if suppressedB m then []
  else
    [{ level := .error, code := codeLatexError,
       message := "LaTeX reported an error. See raw for details.".data,
       raw := pyStrip m.matched }]

/-- A rule: a pattern and a handler.  The handler returns none to model a
Python handler that raises. -/
structure Rule where
  pat : Pat
  handler : RMatch → Option (List Diagnostic)

/-- The default rules of _register_default_rules, in registration order. -/
def defaultRules : List Rule :=
  [⟨reUndefined, fun m => some (handleUndefinedControlSequence m)⟩,
   ⟨reMissingFile, fun m => some (handleMissingPackage m)⟩,
   ⟨reRunaway, fun m => some (handleRunawayArgument m)⟩,
   ⟨reGenericBang, fun m => some (handleGenericError m)⟩]

/-- Worker of finditer: scan positions left to right, continuing after the
end of each (nonempty) match, fuelled by the number of positions left. -/
def findIterGo (pat : Pat) (log : Str) : Nat → Nat → List RMatch
  | 0, _ => []
  | fuel + 1, pos =>
    if log.length < pos then []
    else
      match pat log pos with
      | none => findIterGo pat log fuel (pos + 1)
      | some (e, gs) =>
        { start := pos, stop := e, matched := (log.drop pos).take (e - pos),
          groups := gs } :: findIterGo pat log fuel (max (pos + 1) e)

/-- Python re.finditer over the whole log. -/
def findIter (pat : Pat) (log : Str) : List RMatch :=
  findIterGo pat log (log.length + 1) 0

/-- Mutable state of LogAnalyzer.analyse: accumulated diagnostics and the
set of already-claimed match spans. -/
structure AState where
  diagnostics : List Diagnostic
  claimed : List (Nat × Nat)
deriving DecidableEq

/-- One iteration of the inner loop of analyse: skip an already-claimed
span; on handler failure keep the state unchanged; otherwise append the
handler's diagnostics and claim the span. -/
def stepMatch (h : RMatch → Option (List Diagnostic)) (st : AState) (m : RMatch) :
    AState :=
  if (m.start, m.stop) ∈ st.claimed then st
  else
    match h m with
    | none => st
    | some ds =>
      { diagnostics := st.diagnostics ++ ds, claimed := (m.start, m.stop) :: st.claimed }

/-- The inner loop of analyse over the matches of one rule. -/
def processMatches (h : RMatch → Option (List Diagnostic)) (ms : List RMatch)
    (st : AState) : AState :=
  ms.foldl (stepMatch h) st

/-- The outer loop body of analyse for one rule. -/
def runRule (log : Str) (st : AState) (r : Rule) : AState :=
  processMatches r.handler (findIter r.pat log) st

/-- LogAnalyzer.analyse for an arbitrary rule list. -/
def analyseWith (rules : List Rule) (log : Str) : List Diagnostic :=
  (rules.foldl (runRule log) { diagnostics := [], claimed := [] }).diagnostics

/-- LogAnalyzer.analyse with the default rules (analyse_log). -/
def analyse (log : Str) : List Diagnostic := analyseWith defaultRules log

/-- Outcome of the engine-runner subprocess call as observed by compile_tex:
a normal return of exit code and combined log, a FileNotFoundError, or any
other exception, with the exception text. -/
inductive RunOutcome where
  | ok (returnCode : Int) (log : Str)
  | execMissing (msg : Str)
  | failed (msg : Str)
deriving DecidableEq

/-- The environment compile_tex interacts with: the filesystem facts it
queries, the string forms of the paths involved, the engine name, the
rendered timeout value, and the runner's outcome. -/
structure CompileEnv where
  inputExists : Bool
  inputIsFile : Bool
  texPath : Str
  workdir : Str
  pdfPath : Str
  pdfExists : Bool
  engineName : Str
  timeoutStr : Str
  runOutcome : RunOutcome
deriving DecidableEq

/-- CompileResult of models.py. -/
structure CompileResult where
  success : Bool
  pdfPath : Option Str := none
  log : Str := []
  diagnostics : List Diagnostic := []
  engine : Str := []
  returnCode : Option Int := none
  workdir : Option Str := none
deriving DecidableEq

/-- Diagnostic code for a missing input file. -/
def codeFileNotFound : Str := "file-not-found".data

/-- Diagnostic code for an input path that is not a regular file. -/
def codeInvalidInput : Str := "invalid-input".data

/-- Diagnostic code for an unknown engine name. -/
def codeUnsupported : Str := "unsupported-engine".data

/-- Diagnostic code for an engine executable missing from PATH. -/
def codeEngineNotFound : Str := "engine-not-found".data

/-- Diagnostic code for an unexpected exception during compilation. -/
def codeCompilationError : Str := "compilation-error".data

/-- Diagnostic code for a timed-out compilation. -/
def codeTimeout : Str := "timeout".data

/-- Diagnostic code of the fallback diagnostic on a failed run. -/
def codeCompilationFailed : Str := "compilation-failed".data

/-- Raw payload of the fallback diagnostic: the last 500 characters of the
log when it is longer than 500 characters, the whole log otherwise. -/
def tailWindow (log : Str) : Str :=
  if 500 < log.length then log.drop (log.length - 500) else log

/-- Diagnostic built when the input path does not exist. -/
def fileNotFoundDiag (texPath : Str) : Diagnostic :=
  { level := .error, code := codeFileNotFound,
    message := "Input file not found: ".data ++ texPath,
    raw := "File not found: ".data ++ texPath }

/-- Diagnostic built when the input path is not a regular file. -/
def invalidInputDiag (texPath : Str) : Diagnostic :=
  { level := .error, code := codeInvalidInput,
    message := "Input path is not a file: ".data ++ texPath,
    raw := "Not a file: ".data ++ texPath }

/-- Diagnostic built for an unsupported engine name. -/
def unsupportedDiag (engineName : Str) : Diagnostic :=
  { level := .error, code := codeUnsupported,
    message := "Unsupported engine: ".data ++ engineName,
    raw := "Engine ".data ++ engineName ++ " is not supported".data }

/-- Diagnostic built when the engine executable is absent. -/
def engineNotFoundDiag (engineName msg : Str) : Diagnostic :=
  { level := .error, code := codeEngineNotFound,
    message := "LaTeX engine '".data ++ engineName ++ "' not found on PATH".data,
    raw := msg }

/-- Diagnostic built for an unexpected exception during compilation. -/
def compilationErrorDiag (msg : Str) : Diagnostic :=
  { level := .error, code := codeCompilationError,
    message := "Unexpected error during compilation: ".data ++ msg,
    raw := msg }

/-- Diagnostic built when the log signals a timeout. -/
def timeoutDiag (timeoutStr log : Str) : Diagnostic :=
  { level := .error, code := codeTimeout,
    message := "Compilation timed out after ".data ++ timeoutStr ++
      " seconds".data,
    raw := log }

/-- Fallback diagnostic appended to a failed run with no findings. -/
def compilationFailedDiag (log : Str) : Diagnostic :=
  { level := .error, code := codeCompilationFailed,
    message := "Compilation failed. Check the log for details.".data,
    raw := tailWindow log }

/-- compile_tex of core.py, over the abstract environment. -/
def compileTex (env : CompileEnv) : CompileResult :=
  if env.inputExists = false then
    { success := false, engine := env.engineName,
      diagnostics := [fileNotFoundDiag env.texPath] }
  else if env.inputIsFile = false then
    { success := false, engine := env.engineName,
      diagnostics := [invalidInputDiag env.texPath] }
  else if env.engineName = "tectonic".data ∨ env.engineName = "latexmk".data then
    match env.runOutcome with
    | .execMissing msg =>
      { success := false, engine := env.engineName, log := msg,
        diagnostics := [engineNotFoundDiag env.engineName msg] }
    | .failed msg =>
      { success := false, engine := env.engineName, log := msg,
        diagnostics := [compilationErrorDiag msg] }
    | .ok rc log =>
      if isSubOf "timed out".data (pyLower log) then
        { success := false, engine := env.engineName, returnCode := some rc,
          log := log, diagnostics := [timeoutDiag env.timeoutStr log] }
      else
        let diags := analyse log
        let success := decide (rc = 0) && env.pdfExists
        let diags2 :=
          if success = false ∧ diags = [] then diags ++ [compilationFailedDiag log]
          else diags
        { success := success,
          pdfPath := if env.pdfExists then some env.pdfPath else none,
          log := log, diagnostics := diags2, engine := env.engineName,
          returnCode := some rc, workdir := some env.workdir }
  else
    { success := false, engine := env.engineName,
      diagnostics := [unsupportedDiag env.engineName] }

/-- Example log of the end-to-end undefined-control-sequence scenario. -/
def exLogUndef : Str := "! Undefined control sequence.\nl.5 \\foo\n".data

/-- Example log holding one undefined-control-sequence trigger and one
missing-package trigger. -/
def exLogBoth : Str :=
  "! Undefined control sequence.\nl.5 \\foo\n! LaTeX Error: File `x.sty' not found.\n".data

/-- Example log where document order and rule order disagree. -/
def exLogOrder : Str :=
  "Runaway argument\n! Undefined control sequence.\nl.3 \\x\n".data

/-- Example log with a single generic error banner. -/
def exLogBang : Str := "! boom\n".data

/-- The diagnostic analyse produces on exLogBang. -/
def exDiagBang : Diagnostic :=
  { level := .error, code := codeLatexError,
    message := "LaTeX reported an error. See raw for details.".data,
    raw := "! boom".data }

/-- A handler that fails on every match, as a raising Python handler. -/
def hNone : RMatch → Option (List Diagnostic) := fun _ => none

/-- A trivial match value for exercising handler-failure behaviour. -/
def mTriv : RMatch := { start := 0, stop := 0, matched := [], groups := [] }

/-- A concrete environment: valid input file, tectonic available, exit
code 1, a log with no recognizable error, no PDF produced. -/
def exEnvPlain : CompileEnv :=
  { inputExists := true, inputIsFile := true, texPath := "doc.tex".data,
    workdir := ".".data, pdfPath := "out/doc.pdf".data, pdfExists := false,
    engineName := "tectonic".data, timeoutStr := "10".data,
    runOutcome := .ok 1 "no recognizable failure marker".data }

/-- A concrete environment whose runner log signals a timeout while the
exit code is zero and the PDF exists. -/
def exEnvTimeout : CompileEnv :=
  { inputExists := true, inputIsFile := true, texPath := "doc.tex".data,
    workdir := ".".data, pdfPath := "out/doc.pdf".data, pdfExists := true,
    engineName := "tectonic".data, timeoutStr := "10".data,
    runOutcome := .ok 0 "! boom\nCompilation Timed Out after 10 seconds".data }

/-- A concrete environment whose input path does not exist. -/
def exEnvMissing : CompileEnv :=
  { inputExists := false, inputIsFile := false, texPath := "gone.tex".data,
    workdir := ".".data, pdfPath := "out/gone.pdf".data, pdfExists := false,
    engineName := "tectonic".data, timeoutStr := "10".data,
    runOutcome := .ok 0 [] }

/-- A concrete environment whose input path exists but is a directory. -/
def exEnvDir : CompileEnv :=
  { inputExists := true, inputIsFile := false, texPath := "adir".data,
    workdir := ".".data, pdfPath := "out/adir.pdf".data, pdfExists := false,
    engineName := "tectonic".data, timeoutStr := "10".data,
    runOutcome := .ok 0 [] }

/-- A concrete environment for the success criterion: exit code zero but
no PDF on disk, with an informational log that triggers no rule. -/
def exEnvZeroNoPdf : CompileEnv :=
  { inputExists := true, inputIsFile := true, texPath := "doc.tex".data,
    workdir := ".".data, pdfPath := "out/doc.pdf".data, pdfExists := false,
    engineName := "tectonic".data, timeoutStr := "10".data,
    runOutcome := .ok 0 "all fine".data }

/-- Every match produced by the finditer worker really is a match of the
pattern at its start position, its matched text is the corresponding slice
of the log, and its start is at or after the scan position. -/
theorem findIterGo_mem {pat : Pat} {log : Str} :
    ∀ {fuel pos : Nat} {m : RMatch}, m ∈ findIterGo pat log fuel pos →
      pat log m.start = some (m.stop, m.groups) ∧
      m.matched = (log.drop m.start).take (m.stop - m.start) ∧ pos ≤ m.start := by
  intro fuel
  induction fuel with
  | zero => intro pos m h; simp [findIterGo] at h
  | succ n ih =>
    intro pos m h
    rw [findIterGo] at h
    split at h
    · simp at h
    · cases hp : pat log pos with
      | none =>
        rw [hp] at h
        have hr := ih h
        exact ⟨hr.1, hr.2.1, Nat.le_of_succ_le hr.2.2⟩
      | some v =>
        obtain ⟨e, gs⟩ := v
        rw [hp] at h
        rcases List.mem_cons.mp h with hh | ht
        · subst hh
          exact ⟨hp, rfl, Nat.le_refl _⟩
        · have hr := ih ht
          refine ⟨hr.1, hr.2.1, ?_⟩
          exact Nat.le_trans (Nat.le_trans (Nat.le_succ pos) (Nat.le_max_left _ _)) hr.2.2

/-- The finditer worker scans left to right: starts strictly increase. -/
theorem findIterGo_sorted {pat : Pat} {log : Str} :
    ∀ {fuel pos : Nat},
      List.Pairwise (fun a b : RMatch => a.start < b.start)
        (findIterGo pat log fuel pos) := by
  intro fuel
  induction fuel with
  | zero => intro pos; simp [findIterGo]
  | succ n ih =>
    intro pos
    rw [findIterGo]
    split
    · simp
    · cases hp : pat log pos with
      | none => exact ih
      | some v =>
        obtain ⟨e, gs⟩ := v
        refine List.Pairwise.cons ?_ ih
        intro b hb
        have h3 := (findIterGo_mem hb).2.2
        exact Nat.lt_of_lt_of_le
          (Nat.lt_of_lt_of_le (Nat.lt_succ_self pos) (Nat.le_max_left _ _)) h3

/-- Matches returned by findIter are sorted by start position. -/
theorem findIter_sorted (pat : Pat) (log : Str) :
    List.Pairwise (fun a b : RMatch => a.start < b.start) (findIter pat log) :=
  findIterGo_sorted

/-- Soundness of findIter: specialisation of the worker lemma. -/
theorem findIter_mem {pat : Pat} {log : Str} {m : RMatch}
    (h : m ∈ findIter pat log) :
    pat log m.start = some (m.stop, m.groups) ∧
      m.matched = (log.drop m.start).take (m.stop - m.start) :=
  ⟨(findIterGo_mem h).1, (findIterGo_mem h).2.1⟩

/-- If the pattern matches somewhere inside the log, the worker finds at
least one match. -/
theorem findIterGo_ne_nil {pat : Pat} {log : Str} {p e : Nat} {gs : List Str}
    (hp : pat log p = some (e, gs)) (hple : p ≤ log.length) :
    ∀ fuel pos, pos ≤ p → p < fuel + pos → findIterGo pat log fuel pos ≠ [] := by
  intro fuel
  induction fuel with
  | zero => intro pos h1 h2; omega
  | succ n ih =>
    intro pos h1 h2
    rw [findIterGo]
    split
    · next hlen => omega
    · cases hq : pat log pos with
      | none =>
        apply ih (pos + 1)
        · rcases Nat.eq_or_lt_of_le h1 with he | hlt
          · exact absurd hp (by rw [he] at hq; rw [hq]; exact Option.noConfusion)
          · omega
        · omega
      | some v => simp

/-- If the pattern matches somewhere inside the log, findIter is nonempty. -/
theorem findIter_ne_nil {pat : Pat} {log : Str} {p e : Nat} {gs : List Str}
    (hp : pat log p = some (e, gs)) (hple : p ≤ log.length) :
    findIter pat log ≠ [] :=
  findIterGo_ne_nil hp hple (log.length + 1) 0 (Nat.zero_le p) (by omega)

/-- A pattern whose every match sees a fixed character at its start. -/
def HeadChar (pat : Pat) (c : Char) : Prop :=
  ∀ log pos e gs, pat log pos = some (e, gs) → (log.drop pos).head? = some c

/-- Rule 1 matches only at a capital U. -/
theorem headChar_reUndefined : HeadChar reUndefined 'U' := by
  intro log pos e gs h
  unfold reUndefined at h
  by_cases hpre : litUndef.isPrefixOf (log.drop pos) = true
  · obtain ⟨t, ht⟩ := List.isPrefixOf_iff_prefix.mp hpre
    rw [← ht]
    rfl
  · simp only [hpre] at h
    simp at h

/-- Rule 2 matches only at a capital L. -/
theorem headChar_reMissingFile : HeadChar reMissingFile 'L' := by
  intro log pos e gs h
  unfold reMissingFile at h
  by_cases hpre : litMissHead.isPrefixOf (log.drop pos) = true
  · obtain ⟨t, ht⟩ := List.isPrefixOf_iff_prefix.mp hpre
    rw [← ht]
    rfl
  · simp only [hpre] at h
    simp at h

/-- Rule 3 matches only at a capital R. -/
theorem headChar_reRunaway : HeadChar reRunaway 'R' := by
  intro log pos e gs h
  unfold reRunaway at h
  by_cases hpre : litRunaway.isPrefixOf (log.drop pos) = true
  · obtain ⟨t, ht⟩ := List.isPrefixOf_iff_prefix.mp hpre
    rw [← ht]
    rfl
  · simp only [hpre] at h
    simp at h

/-- Rule 4 matches only at an exclamation mark. -/
theorem headChar_reGenericBang : HeadChar reGenericBang '!' := by
  intro log pos e gs h
  unfold reGenericBang at h
  split at h
  · cases hd : log.drop pos with
    | nil => rw [hd] at h; simp at h
    | cons c r =>
      by_cases hc : c = '!'
      · subst hc
        rfl
      · rw [hd] at h
        simp [hc] at h
  · exact Option.noConfusion h

/-- Spans of matches of two patterns with different head characters never
coincide. -/
theorem span_fresh {pat pat' : Pat} {c c' : Char} (hc : HeadChar pat c)
    (hc' : HeadChar pat' c') (hne : c ≠ c') (log : Str) {m : RMatch}
    (hm : m ∈ findIter pat log) :
    (m.start, m.stop) ∉ (findIter pat' log).map fun x => (x.start, x.stop) := by
  intro hmem
  rcases List.mem_map.mp hmem with ⟨m', hm', heq⟩
  have h1 := (findIter_mem hm).1
  have h2 := (findIter_mem hm').1
  have e1 := hc log m.start m.stop m.groups h1
  have e2 := hc' log m'.start m'.stop m'.groups h2
  have hs : m'.start = m.start := congrArg Prod.fst heq
  rw [hs, e1] at e2
  exact hne (Option.some.inj e2)

/-- Spans claimed by processMatches with an always-successful handler and
fresh, pairwise-distinct matches: the loop appends every handler output in
match order and claims every span. -/
theorem processMatches_total (h₀ : RMatch → List Diagnostic) :
    ∀ (ms : List RMatch) (st : AState),
      (∀ m ∈ ms, (m.start, m.stop) ∉ st.claimed) →
      List.Pairwise (fun a b : RMatch => a.start ≠ b.start) ms →
      processMatches (fun m => some (h₀ m)) ms st =
        { diagnostics := st.diagnostics ++ ms.flatMap h₀,
          claimed := (ms.map fun m => (m.start, m.stop)).reverse ++ st.claimed } := by
  intro ms
  induction ms with
  | nil =>
    intro st h1 h2
    cases st
    simp [processMatches]
  | cons m rest ih =>
    intro st h1 h2
    have hm : (m.start, m.stop) ∉ st.claimed := h1 m (List.mem_cons_self m rest)
    have hstep : stepMatch (fun m => some (h₀ m)) st m =
        { diagnostics := st.diagnostics ++ h₀ m,
          claimed := (m.start, m.stop) :: st.claimed } := by
      simp [stepMatch, hm]
    have hpair := List.pairwise_cons.mp h2
    have hrest : ∀ m' ∈ rest,
        (m'.start, m'.stop) ∉ (m.start, m.stop) :: st.claimed := by
      intro m' hm'
      intro hmem
      rcases List.mem_cons.mp hmem with hh | ht
      · exact hpair.1 m' hm' (congrArg Prod.fst hh).symm
      · exact h1 m' (List.mem_cons_of_mem m hm') ht
    calc processMatches (fun m => some (h₀ m)) (m :: rest) st
        = processMatches (fun m => some (h₀ m)) rest
            { diagnostics := st.diagnostics ++ h₀ m,
              claimed := (m.start, m.stop) :: st.claimed } := by
          simp [processMatches, hstep]
      _ = { diagnostics := st.diagnostics ++ (m :: rest).flatMap h₀,
            claimed := ((m :: rest).map fun m => (m.start, m.stop)).reverse ++
              st.claimed } := by
          rw [ih _ hrest hpair.2]
          simp [List.append_assoc]

/-- Diagnostics a single rule contributes over the whole log, in match
order. -/
def ruleOut (pat : Pat) (h₀ : RMatch → List Diagnostic) (log : Str) :
    List Diagnostic :=
  (findIter pat log).flatMap h₀

/-- Distinct starts of the matches of one pattern. -/
theorem pairwise_ne_start (pat : Pat) (log : Str) :
    List.Pairwise (fun a b : RMatch => a.start ≠ b.start) (findIter pat log) :=
  (findIter_sorted pat log).imp Nat.ne_of_lt

/-- The output of analyse with the default rules decomposes into the four
rules' contributions, in registration order, because no two default rules
ever claim the same span (their matches begin with distinct characters). -/
theorem analyse_decomp (log : Str) :
    analyse log =
      ruleOut reUndefined handleUndefinedControlSequence log ++
      ruleOut reMissingFile handleMissingPackage log ++
      ruleOut reRunaway handleRunawayArgument log ++
      ruleOut reGenericBang handleGenericError log := by
  have hfresh1 : ∀ m ∈ findIter reUndefined log,
      (m.start, m.stop) ∉ ([] : List (Nat × Nat)) := by simp
  have s1 : runRule log { diagnostics := [], claimed := [] }
      ⟨reUndefined, fun m => some (handleUndefinedControlSequence m)⟩ =
      { diagnostics := [] ++
          (findIter reUndefined log).flatMap handleUndefinedControlSequence,
        claimed := ((findIter reUndefined log).map fun m =>
          (m.start, m.stop)).reverse ++ [] } :=
    processMatches_total handleUndefinedControlSequence _ _ hfresh1
      (pairwise_ne_start _ _)
  have hfresh2 : ∀ m ∈ findIter reMissingFile log,
      (m.start, m.stop) ∉ ((findIter reUndefined log).map fun m =>
        (m.start, m.stop)).reverse ++ ([] : List (Nat × Nat)) := by
    intro m hm
    simp only [List.append_nil, List.mem_reverse]
    exact span_fresh headChar_reMissingFile headChar_reUndefined (by decide) log hm
  have s2 : runRule log
      { diagnostics := [] ++
          (findIter reUndefined log).flatMap handleUndefinedControlSequence,
        claimed := ((findIter reUndefined log).map fun m =>
          (m.start, m.stop)).reverse ++ [] }
      ⟨reMissingFile, fun m => some (handleMissingPackage m)⟩ =
      { diagnostics := ([] ++
          (findIter reUndefined log).flatMap handleUndefinedControlSequence) ++
          (findIter reMissingFile log).flatMap handleMissingPackage,
        claimed := ((findIter reMissingFile log).map fun m =>
          (m.start, m.stop)).reverse ++
          (((findIter reUndefined log).map fun m =>
            (m.start, m.stop)).reverse ++ []) } :=
    processMatches_total handleMissingPackage _ _ hfresh2 (pairwise_ne_start _ _)
  have hfresh3 : ∀ m ∈ findIter reRunaway log,
      (m.start, m.stop) ∉ ((findIter reMissingFile log).map fun m =>
        (m.start, m.stop)).reverse ++
        (((findIter reUndefined log).map fun m =>
          (m.start, m.stop)).reverse ++ ([] : List (Nat × Nat))) := by
    intro m hm
    simp only [List.append_nil, List.mem_append, List.mem_reverse, not_or]
    exact ⟨span_fresh headChar_reRunaway headChar_reMissingFile (by decide) log hm,
      span_fresh headChar_reRunaway headChar_reUndefined (by decide) log hm⟩
  have s3 : runRule log
      { diagnostics := ([] ++
          (findIter reUndefined log).flatMap handleUndefinedControlSequence) ++
          (findIter reMissingFile log).flatMap handleMissingPackage,
        claimed := ((findIter reMissingFile log).map fun m =>
          (m.start, m.stop)).reverse ++
          (((findIter reUndefined log).map fun m =>
            (m.start, m.stop)).reverse ++ []) }
      ⟨reRunaway, fun m => some (handleRunawayArgument m)⟩ =
      { diagnostics := (([] ++
          (findIter reUndefined log).flatMap handleUndefinedControlSequence) ++
          (findIter reMissingFile log).flatMap handleMissingPackage) ++
          (findIter reRunaway log).flatMap handleRunawayArgument,
        claimed := ((findIter reRunaway log).map fun m =>
          (m.start, m.stop)).reverse ++
          (((findIter reMissingFile log).map fun m =>
            (m.start, m.stop)).reverse ++
            (((findIter reUndefined log).map fun m =>
              (m.start, m.stop)).reverse ++ [])) } :=
    processMatches_total handleRunawayArgument _ _ hfresh3 (pairwise_ne_start _ _)
  have hfresh4 : ∀ m ∈ findIter reGenericBang log,
      (m.start, m.stop) ∉ ((findIter reRunaway log).map fun m =>
        (m.start, m.stop)).reverse ++
        (((findIter reMissingFile log).map fun m =>
          (m.start, m.stop)).reverse ++
          (((findIter reUndefined log).map fun m =>
            (m.start, m.stop)).reverse ++ ([] : List (Nat × Nat)))) := by
    intro m hm
    simp only [List.append_nil, List.mem_append, List.mem_reverse, not_or]
    exact ⟨span_fresh headChar_reGenericBang headChar_reRunaway (by decide) log hm,
      span_fresh headChar_reGenericBang headChar_reMissingFile (by decide) log hm,
      span_fresh headChar_reGenericBang headChar_reUndefined (by decide) log hm⟩
  have s4 : runRule log
      { diagnostics := (([] ++
          (findIter reUndefined log).flatMap handleUndefinedControlSequence) ++
          (findIter reMissingFile log).flatMap handleMissingPackage) ++
          (findIter reRunaway log).flatMap handleRunawayArgument,
        claimed := ((findIter reRunaway log).map fun m =>
          (m.start, m.stop)).reverse ++
          (((findIter reMissingFile log).map fun m =>
            (m.start, m.stop)).reverse ++
            (((findIter reUndefined log).map fun m =>
              (m.start, m.stop)).reverse ++ [])) }
      ⟨reGenericBang, fun m => some (handleGenericError m)⟩ =
      { diagnostics := ((([] ++
          (findIter reUndefined log).flatMap handleUndefinedControlSequence) ++
          (findIter reMissingFile log).flatMap handleMissingPackage) ++
          (findIter reRunaway log).flatMap handleRunawayArgument) ++
          (findIter reGenericBang log).flatMap handleGenericError,
        claimed := ((findIter reGenericBang log).map fun m =>
          (m.start, m.stop)).reverse ++
          (((findIter reRunaway log).map fun m =>
            (m.start, m.stop)).reverse ++
            (((findIter reMissingFile log).map fun m =>
              (m.start, m.stop)).reverse ++
              (((findIter reUndefined log).map fun m =>
                (m.start, m.stop)).reverse ++ []))) } :=
    processMatches_total handleGenericError _ _ hfresh4 (pairwise_ne_start _ _)
  calc analyse log
      = (runRule log (runRule log (runRule log (runRule log
          { diagnostics := [], claimed := [] }
          ⟨reUndefined, fun m => some (handleUndefinedControlSequence m)⟩)
          ⟨reMissingFile, fun m => some (handleMissingPackage m)⟩)
          ⟨reRunaway, fun m => some (handleRunawayArgument m)⟩)
          ⟨reGenericBang, fun m => some (handleGenericError m)⟩).diagnostics := rfl
    _ = ruleOut reUndefined handleUndefinedControlSequence log ++
        ruleOut reMissingFile handleMissingPackage log ++
        ruleOut reRunaway handleRunawayArgument log ++
        ruleOut reGenericBang handleGenericError log := by
        rw [s1, s2, s3, s4]
        simp [ruleOut]

/-- Number of diagnostics in a list carrying a given code. -/
def countCode (c : Str) (ds : List Diagnostic) : Nat :=
  (ds.filter fun d => d.code == c).length

/-- countCode distributes over append. -/
theorem countCode_append (c : Str) (a b : List Diagnostic) :
    countCode c (a ++ b) = countCode c a + countCode c b := by
  simp [countCode]

/-- countCode on a singleton. -/
theorem countCode_singleton (c : Str) (d : Diagnostic) :
    countCode c [d] = if d.code == c then 1 else 0 := by
  by_cases h : d.code == c
  · simp [countCode, h]
  · simp [countCode, h]

/-- countCode over flatMap when every handler output counts one. -/
theorem countCode_flatMap_one {h₀ : RMatch → List Diagnostic} {c : Str}
    (hone : ∀ m, countCode c (h₀ m) = 1) (ms : List RMatch) :
    countCode c (ms.flatMap h₀) = ms.length := by
  induction ms with
  | nil => simp [countCode]
  | cons m rest ih =>
    rw [List.flatMap_cons, countCode_append, hone, ih]
    simp [Nat.add_comm]

/-- countCode over flatMap when every handler output counts zero. -/
theorem countCode_flatMap_zero {h₀ : RMatch → List Diagnostic} {c : Str}
    (hz : ∀ m, countCode c (h₀ m) = 0) (ms : List RMatch) :
    countCode c (ms.flatMap h₀) = 0 := by
  induction ms with
  | nil => simp [countCode]
  | cons m rest ih => rw [List.flatMap_cons, countCode_append, hz, ih]

/-- Transitivity of the list-segment relation. -/
theorem within_trans {a b c : Str} (h1 : a <:+: b) (h2 : b <:+: c) : a <:+: c := by
  obtain ⟨u, v, huv⟩ := h1
  obtain ⟨x, y, hxy⟩ := h2
  exact ⟨x ++ u, v ++ y, by rw [← hxy, ← huv]; simp [List.append_assoc]⟩

/-- A take-after-drop slice is a segment of the original list. -/
theorem sliceWithin (log : Str) (a n : Nat) : (log.drop a).take n <:+: log := by
  refine ⟨log.take a, (log.drop a).drop n, ?_⟩
  rw [List.append_assoc, List.take_append_drop, List.take_append_drop]

/-- Stripping whitespace yields a segment of the original string. -/
theorem stripWithin (s : Str) : pyStrip s <:+: s := by
  obtain ⟨u, hu⟩ : s.dropWhile pyWs <:+ s := List.dropWhile_suffix pyWs
  obtain ⟨v, hv⟩ : (s.dropWhile pyWs).reverse.dropWhile pyWs <:+
      (s.dropWhile pyWs).reverse := List.dropWhile_suffix pyWs
  refine ⟨u, v.reverse, ?_⟩
  have hy : ((s.dropWhile pyWs).reverse.dropWhile pyWs).reverse ++ v.reverse =
      s.dropWhile pyWs := by
    have hrv := congrArg List.reverse hv
    simpa [List.reverse_append] using hrv
  calc u ++ pyStrip s ++ v.reverse
      = u ++ (((s.dropWhile pyWs).reverse.dropWhile pyWs).reverse ++ v.reverse) := by
        rw [pyStrip, List.append_assoc]
    _ = u ++ s.dropWhile pyWs := by rw [hy]
    _ = s := hu

/-- Every diagnostic of analyse comes from some handler invocation on some
finditer match of one of the four default rules. -/
theorem analyse_provenance {log : Str} {d : Diagnostic} (hd : d ∈ analyse log) :
    (∃ m ∈ findIter reUndefined log, d ∈ handleUndefinedControlSequence m) ∨
    (∃ m ∈ findIter reMissingFile log, d ∈ handleMissingPackage m) ∨
    (∃ m ∈ findIter reRunaway log, d ∈ handleRunawayArgument m) ∨
    (∃ m ∈ findIter reGenericBang log, d ∈ handleGenericError m) := by
  rw [analyse_decomp] at hd
  simp only [ruleOut, List.mem_append, List.mem_flatMap] at hd
  rcases hd with ((h | h) | h) | h
  · exact Or.inl h
  · exact Or.inr (Or.inl h)
  · exact Or.inr (Or.inr (Or.inl h))
  · exact Or.inr (Or.inr (Or.inr h))

/-- Common shape of every default handler's output: error level, no file
or line attribution, and raw equal to the stripped matched text. -/
theorem handler_fields {m : RMatch} {d : Diagnostic}
    (hd : d ∈ handleUndefinedControlSequence m ∨ d ∈ handleMissingPackage m ∨
      d ∈ handleRunawayArgument m ∨ d ∈ handleGenericError m) :
    d.level = .error ∧ d.file = none ∧ d.line = none ∧
      d.raw = pyStrip m.matched := by
  rcases hd with h | h | h | h
  · simp only [handleUndefinedControlSequence, List.mem_singleton] at h
    simp [h]
  · simp only [handleMissingPackage, List.mem_singleton] at h
    simp [h]
  · simp only [handleRunawayArgument, List.mem_singleton] at h
    simp [h]
  · by_cases hs : suppressedB m
    · simp [handleGenericError, hs] at h
    · simp [handleGenericError, hs] at h
      simp [h]

/-- Code count of the rule-1 handler output. -/
theorem countCode_handleUCS (c : Str) (m : RMatch) :
    countCode c (handleUndefinedControlSequence m) =
      if codeUndef == c then 1 else 0 := by
  simp only [handleUndefinedControlSequence]
  rw [countCode_singleton]

/-- Code count of the rule-2 handler output. -/
theorem countCode_handleMissing (c : Str) (m : RMatch) :
    countCode c (handleMissingPackage m) = if codeMissing == c then 1 else 0 := by
  simp only [handleMissingPackage]
  rw [countCode_singleton]

/-- Code count of the rule-3 handler output. -/
theorem countCode_handleRunaway (c : Str) (m : RMatch) :
    countCode c (handleRunawayArgument m) =
      if codeRunawayArg == c then 1 else 0 := by
  simp only [handleRunawayArgument]
  rw [countCode_singleton]

/-- Code count of the rule-4 handler output, split on self-suppression. -/
theorem countCode_handleGeneric (c : Str) (m : RMatch) :
    countCode c (handleGenericError m) =
      if suppressedB m then 0 else if codeLatexError == c then 1 else 0 := by
  by_cases hs : suppressedB m
  · simp [handleGenericError, hs, countCode]
  · simp only [handleGenericError, hs]
    simp only [Bool.false_eq_true, if_false]
    rw [countCode_singleton]

/-- Rule 4 contributes one latex-error diagnostic per unsuppressed match. -/
theorem countCode_generic_flatMap (ms : List RMatch) :
    countCode codeLatexError (ms.flatMap handleGenericError) =
      (ms.filter fun m => !(suppressedB m)).length := by
  induction ms with
  | nil => simp [countCode]
  | cons m rest ih =>
    rw [List.flatMap_cons, countCode_append, ih, countCode_handleGeneric]
    by_cases hs : suppressedB m
    · simp [hs]
    · simp [hs, Nat.add_comm]

/-- analyse emits one undefined-control-sequence diagnostic per rule-1
match. -/
theorem countCode_analyse_undef (log : Str) :
    countCode codeUndef (analyse log) = (findIter reUndefined log).length := by
  rw [analyse_decomp]
  rw [countCode_append, countCode_append, countCode_append]
  rw [ruleOut, ruleOut, ruleOut, ruleOut]
  rw [countCode_flatMap_one (fun m => by rw [countCode_handleUCS]; decide)]
  rw [countCode_flatMap_zero (fun m => by rw [countCode_handleMissing]; decide)]
  rw [countCode_flatMap_zero (fun m => by rw [countCode_handleRunaway]; decide)]
  rw [countCode_flatMap_zero (fun m => by
    rw [countCode_handleGeneric]
    by_cases hs : suppressedB m
    · simp [hs]
    · simp [hs]
      decide)]
  omega

/-- analyse emits one missing-package diagnostic per rule-2 match. -/
theorem countCode_analyse_missing (log : Str) :
    countCode codeMissing (analyse log) = (findIter reMissingFile log).length := by
  rw [analyse_decomp]
  rw [countCode_append, countCode_append, countCode_append]
  rw [ruleOut, ruleOut, ruleOut, ruleOut]
  rw [countCode_flatMap_zero (fun m => by rw [countCode_handleUCS]; decide)]
  rw [countCode_flatMap_one (fun m => by rw [countCode_handleMissing]; decide)]
  rw [countCode_flatMap_zero (fun m => by rw [countCode_handleRunaway]; decide)]
  rw [countCode_flatMap_zero (fun m => by
    rw [countCode_handleGeneric]
    by_cases hs : suppressedB m
    · simp [hs]
    · simp [hs]
      decide)]
  omega

/-- analyse emits one latex-error diagnostic per unsuppressed rule-4
match, and none from the other rules. -/
theorem countCode_analyse_latex (log : Str) :
    countCode codeLatexError (analyse log) =
      ((findIter reGenericBang log).filter fun m => !(suppressedB m)).length := by
  rw [analyse_decomp]
  rw [countCode_append, countCode_append, countCode_append]
  rw [ruleOut, ruleOut, ruleOut, ruleOut]
  rw [countCode_flatMap_zero (fun m => by rw [countCode_handleUCS]; decide)]
  rw [countCode_flatMap_zero (fun m => by rw [countCode_handleMissing]; decide)]
  rw [countCode_flatMap_zero (fun m => by rw [countCode_handleRunaway]; decide)]
  rw [countCode_generic_flatMap]
  omega

/-- A successful rule-1 match always captures exactly one group, a
backslash followed by the command letters. -/
theorem reUndefined_shape {log : Str} {pos e : Nat} {gs : List Str}
    (h : reUndefined log pos = some (e, gs)) : ∃ g, gs = ['\\' :: g] := by
  simp only [reUndefined] at h
  split at h
  · split at h
    · split at h
      · split at h
        · exact Option.noConfusion h
        · split at h
          · exact Option.noConfusion h
          · split at h
            · split at h
              · exact Option.noConfusion h
              · simp only [Option.some.injEq, Prod.mk.injEq] at h
                exact ⟨_, h.2.symm⟩
            · exact Option.noConfusion h
      · exact Option.noConfusion h
    · exact Option.noConfusion h
  · exact Option.noConfusion h

/-- A stepMatch over a failing handler invocation leaves the state
untouched. -/
theorem stepMatch_none {h : RMatch → Option (List Diagnostic)} {m : RMatch}
    (hm : h m = none) (st : AState) : stepMatch h st m = st := by
  rw [stepMatch]
  split
  · rfl
  · rw [hm]

/-- processMatches over an always-failing handler is the identity. -/
theorem processMatches_none (h : RMatch → Option (List Diagnostic))
    (hall : ∀ m, h m = none) : ∀ (ms : List RMatch) (st : AState),
      processMatches h ms st = st := by
  intro ms
  induction ms with
  | nil => intro st; rfl
  | cons m rest ih =>
    intro st
    rw [processMatches, List.foldl_cons, stepMatch_none (hall m)]
    exact ih st

/-- C1: whenever the undefined-control-sequence pattern and the
missing-package pattern each match exactly once in a log, analyse reports
the code undefined-control-sequence exactly once and the code
missing-package exactly once; the generic rule contributes latex-error
diagnostics only for unsuppressed banner lines, and its handler returns
no diagnostics whenever the lowercased stripped banner text contains one
of the suppression keywords. -/
theorem claim_C1_both_codes_once (log : Str)
    (h1 : (findIter reUndefined log).length = 1)
    (h2 : (findIter reMissingFile log).length = 1) :
    countCode codeUndef (analyse log) = 1 ∧
    countCode codeMissing (analyse log) = 1 ∧
    countCode codeLatexError (analyse log) =
      ((findIter reGenericBang log).filter fun m => !(suppressedB m)).length ∧
    ∀ m : RMatch, suppressedB m = true → handleGenericError m = [] := by
  refine ⟨?_, ?_, countCode_analyse_latex log, ?_⟩
  · rw [countCode_analyse_undef, h1]
  · rw [countCode_analyse_missing, h2]
  · intro m hs
    simp [handleGenericError, hs]

/-- Witness for C1 on a log holding one trigger of each kind: both codes
appear exactly once and no latex-error diagnostic is produced. -/
theorem claim_C1_witness :
    (findIter reUndefined exLogBoth).length = 1 ∧
    (findIter reMissingFile exLogBoth).length = 1 ∧
    countCode codeUndef (analyse exLogBoth) = 1 ∧
    countCode codeMissing (analyse exLogBoth) = 1 ∧
    countCode codeLatexError (analyse exLogBoth) = 0 := by
  have h := claim_C1_both_codes_once exLogBoth (by decide) (by decide)
  exact ⟨by decide, by decide, h.1, h.2.1, by rw [h.2.2.1]; decide⟩

/-- C2: a handler invocation that fails is discarded: the failing match
contributes nothing while every other match and rule is still processed,
and a rule whose handler always fails leaves the analysis of the other
rules unchanged, so a fault never escapes analyse. -/
theorem claim_C2_handler_fault_isolated
    (h : RMatch → Option (List Diagnostic)) (m₀ : RMatch) (hm : h m₀ = none) :
    (∀ (pre post : List RMatch) (st : AState),
      processMatches h (pre ++ m₀ :: post) st =
        processMatches h (pre ++ post) st) ∧
    (∀ (pat : Pat) (rules1 rules2 : List Rule) (log : Str),
      (∀ m, h m = none) →
      analyseWith (rules1 ++ ⟨pat, h⟩ :: rules2) log =
        analyseWith (rules1 ++ rules2) log) := by
  constructor
  · intro pre post st
    rw [processMatches, processMatches, List.foldl_append, List.foldl_append,
      List.foldl_cons, stepMatch_none hm]
  · intro pat rules1 rules2 log hall
    rw [analyseWith, analyseWith, List.foldl_append, List.foldl_append,
      List.foldl_cons]
    rw [show runRule log
        (List.foldl (runRule log) { diagnostics := [], claimed := [] } rules1)
        ⟨pat, h⟩ =
        List.foldl (runRule log) { diagnostics := [], claimed := [] } rules1 from
      processMatches_none h hall _ _]

/-- Witness for C2: a one-rule analyzer whose handler always fails
produces the same output as an analyzer with no rules at all, and a
failing match inside a match list is skipped. -/
theorem claim_C2_witness :
    processMatches hNone ([] ++ mTriv :: []) { diagnostics := [], claimed := [] } =
      processMatches hNone ([] ++ []) { diagnostics := [], claimed := [] } ∧
    analyseWith ([] ++ ⟨reGenericBang, hNone⟩ :: []) exLogBang =
      analyseWith ([] ++ []) exLogBang := by
  have h := claim_C2_handler_fault_isolated hNone mTriv rfl
  exact ⟨h.1 [] [] _, h.2 reGenericBang [] [] exLogBang (fun m => rfl)⟩

/-- C3: for every log on which the undefined-control-sequence pattern
matches, analyse returns a diagnostic with code
undefined-control-sequence whose message contains the captured command
name; on the exact end-to-end log the analyzer returns exactly one
diagnostic, with that code and a message containing backslash-foo. -/
theorem claim_C3_undefined_reported (log : Str) (p e : Nat) (gs : List Str)
    (hp : reUndefined log p = some (e, gs)) :
    (∃ d ∈ analyse log, d.code = codeUndef ∧
      ∃ m ∈ findIter reUndefined log, ∃ g, m.groups = [g] ∧ g <:+: d.message) ∧
    (analyse exLogUndef).length = 1 ∧
    ∀ d ∈ analyse exLogUndef, d.code = codeUndef ∧ "\\foo".data <:+: d.message := by
  refine ⟨?_, by decide, by decide⟩
  have hhd := headChar_reUndefined log p e gs hp
  have hne2 : log.drop p ≠ [] := by
    intro h0
    rw [h0] at hhd
    exact Option.noConfusion hhd
  have hple : p ≤ log.length := by
    have hlen : (log.drop p).length ≠ 0 := by
      intro h0
      exact hne2 (List.length_eq_zero.mp h0)
    rw [List.length_drop] at hlen
    omega
  have hfi := findIter_ne_nil hp hple
  obtain ⟨m, hmmem⟩ := List.exists_mem_of_ne_nil _ hfi
  · obtain ⟨g, hg⟩ := reUndefined_shape (findIter_mem hmmem).1
    have hout : handleUndefinedControlSequence m =
        [{ level := .error, code := codeUndef,
           message := "Undefined control sequence '".data ++ ('\\' :: g) ++
             "'. Check for typos or missing `\\usepackage`/`\\newcommand`.".data,
           raw := pyStrip m.matched }] := by
      simp [handleUndefinedControlSequence, hg]
    refine ⟨{ level := .error, code := codeUndef,
              message := "Undefined control sequence '".data ++ ('\\' :: g) ++
                "'. Check for typos or missing `\\usepackage`/`\\newcommand`.".data,
              raw := pyStrip m.matched }, ?_, rfl, m, hmmem, '\\' :: g, hg, ?_⟩
    · rw [analyse_decomp]
      refine List.mem_append_left _ (List.mem_append_left _
        (List.mem_append_left _ ?_))
      rw [ruleOut]
      refine List.mem_flatMap.mpr ⟨m, hmmem, ?_⟩
      rw [hout]
      exact List.mem_singleton.mpr rfl
    · exact ⟨"Undefined control sequence '".data,
        "'. Check for typos or missing `\\usepackage`/`\\newcommand`.".data, rfl⟩

/-- Witness for C3: on the end-to-end log the pattern matches at offset 2
ending at 38, capturing backslash-foo. -/
theorem claim_C3_witness :
    reUndefined exLogUndef 2 = some (38, ["\\foo".data]) ∧
    (∃ d ∈ analyse exLogUndef, d.code = codeUndef ∧
      ∃ m ∈ findIter reUndefined exLogUndef, ∃ g, m.groups = [g] ∧
        g <:+: d.message) :=
  ⟨by decide,
    (claim_C3_undefined_reported exLogUndef 2 38 ["\\foo".data] (by decide)).1⟩

/-- C4: for every log the output of analyse is the concatenation, in rule
registration order, of the per-rule outputs, each rule's matches being in
left-to-right position order; on a concrete log with a runaway-argument
text occurring before an undefined-control-sequence trigger, the
undefined-control-sequence diagnostic still comes first, so the output is
not in document order across rules. -/
theorem claim_C4_ordering :
    (∀ log : Str, analyse log =
      ruleOut reUndefined handleUndefinedControlSequence log ++
      ruleOut reMissingFile handleMissingPackage log ++
      ruleOut reRunaway handleRunawayArgument log ++
      ruleOut reGenericBang handleGenericError log) ∧
    (∀ (pat : Pat) (log : Str),
      List.Pairwise (fun a b : RMatch => a.start < b.start)
        (findIter pat log)) ∧
    (analyse exLogOrder).map (fun d => d.code) = [codeUndef, codeRunawayArg] ∧
    (∃ m3 ∈ findIter reRunaway exLogOrder,
      ∃ m1 ∈ findIter reUndefined exLogOrder, m3.start < m1.start) :=
  ⟨analyse_decomp, fun pat log => findIter_sorted pat log, by decide, by decide⟩

/-- C9: the raw field of every diagnostic analyse returns is the
whitespace-stripped matched text of some match, and is itself a literal
contiguous substring of the log passed in. -/
theorem claim_C9_raw_is_substring (log : Str) (d : Diagnostic)
    (hd : d ∈ analyse log) :
    ∃ t, t <:+: log ∧ d.raw = pyStrip t ∧ d.raw <:+: log := by
  rcases analyse_provenance hd with ⟨m, hm, hmem⟩ | ⟨m, hm, hmem⟩ |
    ⟨m, hm, hmem⟩ | ⟨m, hm, hmem⟩
  · have hsl := (findIter_mem hm).2
    have hf := handler_fields (Or.inl hmem)
    refine ⟨m.matched, ?_, hf.2.2.2, ?_⟩
    · rw [hsl]
      exact sliceWithin log m.start (m.stop - m.start)
    · rw [hf.2.2.2]
      refine within_trans (stripWithin m.matched) ?_
      rw [hsl]
      exact sliceWithin log m.start (m.stop - m.start)
  · have hsl := (findIter_mem hm).2
    have hf := handler_fields (Or.inr (Or.inl hmem))
    refine ⟨m.matched, ?_, hf.2.2.2, ?_⟩
    · rw [hsl]
      exact sliceWithin log m.start (m.stop - m.start)
    · rw [hf.2.2.2]
      refine within_trans (stripWithin m.matched) ?_
      rw [hsl]
      exact sliceWithin log m.start (m.stop - m.start)
  · have hsl := (findIter_mem hm).2
    have hf := handler_fields (Or.inr (Or.inr (Or.inl hmem)))
    refine ⟨m.matched, ?_, hf.2.2.2, ?_⟩
    · rw [hsl]
      exact sliceWithin log m.start (m.stop - m.start)
    · rw [hf.2.2.2]
      refine within_trans (stripWithin m.matched) ?_
      rw [hsl]
      exact sliceWithin log m.start (m.stop - m.start)
  · have hsl := (findIter_mem hm).2
    have hf := handler_fields (Or.inr (Or.inr (Or.inr hmem)))
    refine ⟨m.matched, ?_, hf.2.2.2, ?_⟩
    · rw [hsl]
      exact sliceWithin log m.start (m.stop - m.start)
    · rw [hf.2.2.2]
      refine within_trans (stripWithin m.matched) ?_
      rw [hsl]
      exact sliceWithin log m.start (m.stop - m.start)

/-- Witness for C9 on the generic-banner log. -/
theorem claim_C9_witness :
    exDiagBang ∈ analyse exLogBang ∧
    ∃ t, t <:+: exLogBang ∧ exDiagBang.raw = pyStrip t ∧
      exDiagBang.raw <:+: exLogBang :=
  ⟨by decide, claim_C9_raw_is_substring exLogBang exDiagBang (by decide)⟩

/-- C10: every diagnostic of the default analyzer has level error and
carries no file or line attribution. -/
theorem claim_C10_error_level_no_location (log : Str) (d : Diagnostic)
    (hd : d ∈ analyse log) :
    d.level = .error ∧ d.file = none ∧ d.line = none := by
  rcases analyse_provenance hd with ⟨m, hm, hmem⟩ | ⟨m, hm, hmem⟩ |
    ⟨m, hm, hmem⟩ | ⟨m, hm, hmem⟩
  · have hf := handler_fields (Or.inl hmem)
    exact ⟨hf.1, hf.2.1, hf.2.2.1⟩
  · have hf := handler_fields (Or.inr (Or.inl hmem))
    exact ⟨hf.1, hf.2.1, hf.2.2.1⟩
  · have hf := handler_fields (Or.inr (Or.inr (Or.inl hmem)))
    exact ⟨hf.1, hf.2.1, hf.2.2.1⟩
  · have hf := handler_fields (Or.inr (Or.inr (Or.inr hmem)))
    exact ⟨hf.1, hf.2.1, hf.2.2.1⟩

/-- Witness for C10 on the generic-banner log. -/
theorem claim_C10_witness :
    exDiagBang ∈ analyse exLogBang ∧
    exDiagBang.level = .error ∧ exDiagBang.file = none ∧
      exDiagBang.line = none :=
  ⟨by decide,
    claim_C10_error_level_no_location exLogBang exDiagBang (by decide)⟩

/-- C5: on a run that reaches log analysis, compile_tex declares success
exactly when the exit code is zero and the output PDF exists, and the
pdf_path field is present exactly when the output file exists, being None
otherwise. -/
theorem claim_C5_success_criterion (env : CompileEnv) (rc : Int) (lg : Str)
    (hex : env.inputExists = true) (hif : env.inputIsFile = true)
    (heng : env.engineName = "tectonic".data ∨ env.engineName = "latexmk".data)
    (hrun : env.runOutcome = RunOutcome.ok rc lg)
    (ht : isSubOf "timed out".data (pyLower lg) = false) :
    ((compileTex env).success = true ↔ (rc = 0 ∧ env.pdfExists = true)) ∧
    ((compileTex env).pdfPath ≠ none ↔ env.pdfExists = true) ∧
    (env.pdfExists = false → (compileTex env).pdfPath = none) := by
  rcases heng with heng | heng <;>
    cases hpe : env.pdfExists <;>
      simp [compileTex, hex, hif, heng, hrun, ht, hpe]

/-- Witness for C5: exit code zero with the PDF absent from disk is not a
success, and pdf_path is None. -/
theorem claim_C5_witness :
    ((compileTex exEnvZeroNoPdf).success = true ↔
      ((0 : Int) = 0 ∧ exEnvZeroNoPdf.pdfExists = true)) ∧
    ((compileTex exEnvZeroNoPdf).pdfPath ≠ none ↔
      exEnvZeroNoPdf.pdfExists = true) ∧
    (compileTex exEnvZeroNoPdf).success = false := by
  have h := claim_C5_success_criterion exEnvZeroNoPdf 0 "all fine".data rfl rfl
    (Or.inl rfl) rfl (by decide)
  exact ⟨h.1, h.2.1, by decide⟩

/-- C6: when the runner's log contains the case-insensitive marker timed
out, compile_tex fails with exactly the single timeout diagnostic,
whatever the exit code and whatever else the log contains; the analyzer
is not consulted. -/
theorem claim_C6_timeout (env : CompileEnv) (rc : Int) (lg : Str)
    (hex : env.inputExists = true) (hif : env.inputIsFile = true)
    (heng : env.engineName = "tectonic".data ∨ env.engineName = "latexmk".data)
    (hrun : env.runOutcome = RunOutcome.ok rc lg)
    (ht : isSubOf "timed out".data (pyLower lg) = true) :
    (compileTex env).success = false ∧
    (compileTex env).diagnostics = [timeoutDiag env.timeoutStr lg] ∧
    (timeoutDiag env.timeoutStr lg).code = codeTimeout := by
  rcases heng with heng | heng <;>
    simp [compileTex, hex, hif, heng, hrun, ht, timeoutDiag, codeTimeout]

/-- Witness for C6: a zero exit code, an existing PDF and an error banner
in the log still yield a failed result with only the timeout
diagnostic. -/
theorem claim_C6_witness :
    (compileTex exEnvTimeout).success = false ∧
    (compileTex exEnvTimeout).diagnostics =
      [timeoutDiag "10".data
        "! boom\nCompilation Timed Out after 10 seconds".data] := by
  have h := claim_C6_timeout exEnvTimeout 0
    "! boom\nCompilation Timed Out after 10 seconds".data rfl rfl (Or.inl rfl)
    rfl (by decide)
  exact ⟨h.1, h.2.1⟩

/-- C7: an unsuccessful analysed run for which the analyzer found nothing
gets exactly the fallback compilation-failed diagnostic, whose raw field
is the last 500 characters of the log or the whole log when shorter; and
every failed compile_tex result carries at least one diagnostic. -/
theorem claim_C7_fallback_diag (env : CompileEnv) (rc : Int) (lg : Str)
    (hex : env.inputExists = true) (hif : env.inputIsFile = true)
    (heng : env.engineName = "tectonic".data ∨ env.engineName = "latexmk".data)
    (hrun : env.runOutcome = RunOutcome.ok rc lg)
    (ht : isSubOf "timed out".data (pyLower lg) = false)
    (hfail : rc ≠ 0 ∨ env.pdfExists = false)
    (hempty : analyse lg = []) :
    (compileTex env).diagnostics = [compilationFailedDiag lg] ∧
    (compilationFailedDiag lg).raw =
      (if 500 < lg.length then lg.drop (lg.length - 500) else lg) ∧
    (compilationFailedDiag lg).code = codeCompilationFailed ∧
    (∀ env2 : CompileEnv, (compileTex env2).success = false →
      (compileTex env2).diagnostics ≠ []) := by
  have hsf : (decide (rc = 0) && env.pdfExists) = false := by
    rcases hfail with h | h
    · simp [h]
    · simp [h]
  refine ⟨?_, rfl, rfl, ?_⟩
  · rcases heng with heng | heng <;>
      simp [compileTex, hex, hif, heng, hrun, ht, hempty, hsf]
  · intro env2 hsucc
    rcases env2 with ⟨ie, iif, tp, wd, pp, pe, en, ts, ro⟩
    cases ie with
    | false => simp [compileTex]
    | true =>
      cases iif with
      | false => simp [compileTex]
      | true =>
        by_cases hsup : en = "tectonic".data ∨ en = "latexmk".data
        · cases ro with
          | execMissing msg => simp [compileTex, hsup]
          | failed msg => simp [compileTex, hsup]
          | ok rc2 lg2 =>
            by_cases ht2 : isSubOf "timed out".data (pyLower lg2) = true
            · simp [compileTex, hsup, ht2]
            · by_cases hrc : rc2 = 0
              · cases pe with
                | true => simp [compileTex, hsup, ht2, hrc] at hsucc
                | false =>
                  by_cases hda : analyse lg2 = []
                  · simp [compileTex, hsup, ht2, hrc, hda]
                  · simp [compileTex, hsup, ht2, hrc, hda]
              · by_cases hda : analyse lg2 = []
                · simp [compileTex, hsup, ht2, hrc, hda]
                · simp [compileTex, hsup, ht2, hrc, hda]
        · simp [compileTex, hsup]

/-- Witness for C7: a failed run with an unrecognizable log gets the
fallback diagnostic. -/
theorem claim_C7_witness :
    (compileTex exEnvPlain).diagnostics =
      [compilationFailedDiag "no recognizable failure marker".data] ∧
    (compileTex exEnvPlain).success = false := by
  have h := claim_C7_fallback_diag exEnvPlain 1
    "no recognizable failure marker".data rfl rfl (Or.inl rfl) rfl (by decide)
    (Or.inl (by decide)) (by decide)
  exact ⟨h.1, by decide⟩

/-- C8: a missing input path yields a failed result with pdf_path None
and exactly the file-not-found diagnostic; an existing path that is not a
regular file yields the invalid-input diagnostic; in both cases the
result does not depend on the runner, which is never consulted. -/
theorem claim_C8_preflight (env : CompileEnv) :
    (env.inputExists = false →
      (compileTex env).success = false ∧ (compileTex env).pdfPath = none ∧
      (compileTex env).diagnostics = [fileNotFoundDiag env.texPath] ∧
      (fileNotFoundDiag env.texPath).code = codeFileNotFound ∧
      (∀ ro : RunOutcome,
        compileTex { env with runOutcome := ro } = compileTex env)) ∧
    (env.inputExists = true → env.inputIsFile = false →
      (compileTex env).success = false ∧ (compileTex env).pdfPath = none ∧
      (compileTex env).diagnostics = [invalidInputDiag env.texPath] ∧
      (invalidInputDiag env.texPath).code = codeInvalidInput ∧
      (∀ ro : RunOutcome,
        compileTex { env with runOutcome := ro } = compileTex env)) := by
  constructor
  · intro hie
    refine ⟨?_, ?_, ?_, rfl, ?_⟩ <;> simp [compileTex, hie]
  · intro hie hif
    refine ⟨?_, ?_, ?_, rfl, ?_⟩ <;> simp [compileTex, hie, hif]

/-- Witness for C8 on a missing path and on a directory path. -/
theorem claim_C8_witness :
    (compileTex exEnvMissing).success = false ∧
    (compileTex exEnvMissing).pdfPath = none ∧
    (compileTex exEnvMissing).diagnostics = [fileNotFoundDiag "gone.tex".data] ∧
    (compileTex exEnvDir).diagnostics = [invalidInputDiag "adir".data] := by
  have h1 := (claim_C8_preflight exEnvMissing).1 rfl
  have h2 := (claim_C8_preflight exEnvDir).2 rfl rfl
  exact ⟨h1.1, h1.2.1, h1.2.2.1, h2.2.2.1⟩

end Tex2Pdf
